import Mathlib

/-!
Verification development for the NFC-simulation dashboard repository.

The repository has two source files:
  * `types.ts` / `services/geminiService.ts` : the data model
    (`ATMAttackState`, `LogEntry`, `AnalysisResult`) and the analysis
    requester `analyzeNFCLogs` (plus `generateDefensiveCode`, which no
    claim concerns).
  * the application component: local state (`state`, `logs`,
    `selectedAmount`, `analysis`, `isAnalyzing`), the mutators `addLog`,
    `startSimulation`, `handleAnalyze`, `resetSimulator`.

The embedding below is a shallow, executable translation of that code.
External nondeterminism (the generative-service response, `Math.random`,
`Date.now`) is passed in explicitly as oracle parameters.  The platform
builtin `JSON.parse` is modelled by a small executable JSON parser
(`jsonParse`): it covers objects, arrays, strings without escape
sequences, integer numerals, booleans and null, which is enough for
every response shape the theorems below reason about; all theorems that
involve parsing are stated relative to `jsonParse`.
-/

/-- The closed set of attack states (`ATMAttackState` in `types.ts`). -/
inductive ATMAttackState where
  | IDLE
  | SCANNING
  | CARD_DETECTED
  | PIN_BYPASS
  | AMOUNT_SELECTION
  | TRANSACTION_PROCESSING
  | COMPLETED
  | FAILED
deriving DecidableEq, Repr

/-- Log levels (`LogEntry.level` in `types.ts`). -/
inductive LogLevel where
  | INFO
  | WARNING
  | ERROR
  | SUCCESS
deriving DecidableEq, Repr

/-- A JSON value.  Used both for the optional structured `data` payload of
a log entry and for the runtime value produced by `JSON.parse` inside
`analyzeNFCLogs` (the TypeScript `as AnalysisResult` cast performs no
runtime validation, so the installed analysis value is arbitrary JSON).
Numbers are modelled as integers; no decided claim depends on
non-integer numerals. -/
inductive Json where
  | null : Json
  | bool : Bool → Json
  | num : Int → Json
  | str : String → Json
  | arr : List Json → Json
  | obj : List (String × Json) → Json
deriving Repr

/-- Log entries (`LogEntry` in `types.ts`). -/
structure LogEntry where
  id : String
  timestamp : Nat
  level : LogLevel
  message : String
  data : Option Json
deriving Repr

/-- The analysis record shape (`AnalysisResult` in `types.ts`). -/
structure AnalysisResult where
  vulnerabilityScore : Int
  threatType : String
  recommendations : List String
  summary : String
deriving Repr

/-! ### A small JSON parser, modelling the platform builtin `JSON.parse` -/

/-- Drop leading JSON whitespace. -/
def skipWs : List Char → List Char
  | [] => []
  | c :: cs =>
    if c = ' ' ∨ c = '\n' ∨ c = '\t' ∨ c = '\r' then skipWs cs else c :: cs

/-- Read the body of a JSON string (no escape sequences) up to the closing
quote; returns the collected characters and the remainder. -/
def takeStr : List Char → Option (List Char × List Char)
  | [] => none
  | c :: cs =>
    if c = '\"' then some ([], cs)
    else
      match takeStr cs with
      | some (s, rest) => some (c :: s, rest)
      | none => none

/-- Split a leading run of decimal digits from the input. -/
def takeDigits : List Char → List Char × List Char
  | [] => ([], [])
  | c :: cs =>
    if c.isDigit then
      let p := takeDigits cs
      (c :: p.1, p.2)
    else ([], c :: cs)

/-- Decimal digits to a natural number. -/
def digitsToNat (ds : List Char) : Nat :=
  ds.foldl (fun acc c => acc * 10 + (c.toNat - 48)) 0

mutual

/-- Parse one JSON value (fuel-bounded). -/
def parseVal : Nat → List Char → Option (Json × List Char)
  | 0, _ => none
  | fuel + 1, cs =>
    match skipWs cs with
    | [] => none
    | c :: rest =>
      if c = 'n' then
        match rest with
        | 'u' :: 'l' :: 'l' :: r => some (Json.null, r)
        | _ => none
      else if c = 't' then
        match rest with
        | 'r' :: 'u' :: 'e' :: r => some (Json.bool true, r)
        | _ => none
      else if c = 'f' then
        match rest with
        | 'a' :: 'l' :: 's' :: 'e' :: r => some (Json.bool false, r)
        | _ => none
      else if c = '\"' then
        match takeStr rest with
        | some (s, r) => some (Json.str (String.mk s), r)
        | none => none
      else if c = '-' then
        match takeDigits rest with
        | ([], _) => none
        | (ds, r) => some (Json.num (-(Int.ofNat (digitsToNat ds))), r)
      else if c.isDigit then
        let p := takeDigits (c :: rest)
        some (Json.num (Int.ofNat (digitsToNat p.1)), p.2)
      else if c = '[' then
        match skipWs rest with
        | c2 :: r2 =>
          if c2 = ']' then some (Json.arr [], r2)
          else
            match parseArrItems fuel (c2 :: r2) with
            | some (xs, r3) => some (Json.arr xs, r3)
            | none => none
        | [] => none
      else if c = '\x7b' then
        match skipWs rest with
        | c2 :: r2 =>
          if c2 = '\x7d' then some (Json.obj [], r2)
          else
            match parseObjItems fuel (c2 :: r2) with
            | some (fs, r3) => some (Json.obj fs, r3)
            | none => none
        | [] => none
      else none

/-- Parse the comma-separated items of a non-empty JSON array, including
the closing bracket. -/
def parseArrItems : Nat → List Char → Option (List Json × List Char)
  | 0, _ => none
  | fuel + 1, cs =>
    match parseVal fuel cs with
    | some (v, r) =>
      match skipWs r with
      | c :: r2 =>
        if c = ',' then
          match parseArrItems fuel r2 with
          | some (vs, r3) => some (v :: vs, r3)
          | none => none
        else if c = ']' then some ([v], r2)
        else none
      | [] => none
    | none => none

/-- Parse the comma-separated members of a non-empty JSON object,
including the closing brace. -/
def parseObjItems : Nat → List Char → Option (List (String × Json) × List Char)
  | 0, _ => none
  | fuel + 1, cs =>
    match skipWs cs with
    | c :: r =>
      if c = '\"' then
        match takeStr r with
        | some (k, r2) =>
          match skipWs r2 with
          | c2 :: r3 =>
            if c2 = ':' then
              match parseVal fuel r3 with
              | some (v, r4) =>
                match skipWs r4 with
                | c3 :: r5 =>
                  if c3 = ',' then
                    match parseObjItems fuel r5 with
                    | some (fs, r6) => some ((String.mk k, v) :: fs, r6)
                    | none => none
                  else if c3 = '\x7d' then some ([(String.mk k, v)], r5)
                  else none
                | [] => none
              | none => none
            else none
          | [] => none
        | none => none
      else none
    | [] => none

end

/-- `JSON.parse`, modelled: parse the whole string as one JSON value,
rejecting trailing garbage.  Returns `none` where `JSON.parse` throws. -/
def jsonParse (s : String) : Option Json :=
  match parseVal (2 * s.length + 2) s.toList with
  | some (j, rest) => if skipWs rest = [] then some j else none
  | none => none

/-! ### Schema completeness and the fallback record -/

/-- Association lookup inside a JSON object. -/
def jsonLookup : List (String × Json) → String → Option Json
  | [], _ => none
  | (k, v) :: rest, key => if k = key then some v else jsonLookup rest key

/-- Field access on a JSON value (`none` when not an object or the field
is missing). -/
def Json.getField : Json → String → Option Json
  | Json.obj fs, key => jsonLookup fs key
  | _, _ => none

/-- Is this JSON value a string? -/
def isStrVal : Json → Bool
  | Json.str _ => true
  | _ => false

/-- Does this optional field hold a number? -/
def fieldIsNum : Option Json → Bool
  | some (Json.num _) => true
  | _ => false

/-- Does this optional field hold a string? -/
def fieldIsStr : Option Json → Bool
  | some (Json.str _) => true
  | _ => false

/-- Does this optional field hold an array of strings? -/
def fieldIsStrArr : Option Json → Bool
  | some (Json.arr xs) => xs.all isStrVal
  | _ => false

/-- A JSON value is a complete `AnalysisResult` record when it is an
object carrying all four required schema fields with the right types
(`vulnerabilityScore : number`, `threatType : string`,
`recommendations : string[]`, `summary : string`). -/
def isCompleteAnalysisResult (j : Json) : Bool :=
  fieldIsNum (j.getField "vulnerabilityScore") &&
  fieldIsStr (j.getField "threatType") &&
  fieldIsStrArr (j.getField "recommendations") &&
  fieldIsStr (j.getField "summary")

/-- Render a typed `AnalysisResult` as the JSON object it denotes. -/
def AnalysisResult.toJson (a : AnalysisResult) : Json :=
  Json.obj
    [("vulnerabilityScore", Json.num a.vulnerabilityScore),
     ("threatType", Json.str a.threatType),
     ("recommendations", Json.arr (a.recommendations.map Json.str)),
     ("summary", Json.str a.summary)]

/-- The hardcoded fallback record returned by `analyzeNFCLogs` when
`JSON.parse` throws (the object literal in its `catch` branch). -/
def fallbackResult : AnalysisResult :=
  { vulnerabilityScore := 0
    threatType := "Analysis Failed"
    recommendations := ["Ensure API connectivity", "Check log formatting"]
    summary := "Could not generate analysis at this time." }

/-- The fallback record as the JSON value the caller receives. -/
def fallbackJson : Json := fallbackResult.toJson

/-! ### Log serialization (`logs.map(...).join newline`) -/

/-- Left-pad a numeral with zeros to the given width. -/
def padZeros (width : Nat) (n : Nat) : String :=
  let s := toString n
  String.mk (List.replicate (width - s.length) '0') ++ s

/-- `Date.toISOString`, modelled: milliseconds since the Unix epoch to
`YYYY-MM-DDTHH:MM:SS.mmmZ`, using the standard civil-from-days
conversion for the proleptic Gregorian calendar. -/
def toISOString (t : Nat) : String :=
  let ms := t % 1000
  let sec := t / 1000 % 60
  let minute := t / 60000 % 60
  let hour := t / 3600000 % 24
  let z := t / 86400000 + 719468
  let era := z / 146097
  let doe := z % 146097
  let yoe := (doe - doe / 1460 + doe / 36524 - doe / 146096) / 365
  let doy := doe - (365 * yoe + yoe / 4 - yoe / 100)
  let mp := (5 * doy + 2) / 153
  let d := doy - (153 * mp + 2) / 5 + 1
  let m := if mp < 10 then mp + 3 else mp - 9
  let y := yoe + era * 400 + (if m ≤ 2 then 1 else 0)
  padZeros 4 y ++ "-" ++ padZeros 2 m ++ "-" ++ padZeros 2 d ++ "T" ++
    padZeros 2 hour ++ ":" ++ padZeros 2 minute ++ ":" ++ padZeros 2 sec ++
    "." ++ padZeros 3 ms ++ "Z"

/-- Render a log level as its uppercase tag. -/
def levelTag : LogLevel → String
  | LogLevel.INFO => "INFO"
  | LogLevel.WARNING => "WARNING"
  | LogLevel.ERROR => "ERROR"
  | LogLevel.SUCCESS => "SUCCESS"

/-- One serialized log line, as built inside `analyzeNFCLogs`:
`[ISO-timestamp] LEVEL: message`. -/
def logLine (l : LogEntry) : String :=
  "[" ++ toISOString l.timestamp ++ "] " ++ levelTag l.level ++ ": " ++ l.message

/-- The serialized log block handed to the external service. -/
def logContext (logs : List LogEntry) : String :=
  String.intercalate "\n" (logs.map logLine)

/-! ### The analysis requester (`analyzeNFCLogs`) -/

/-- Outcome of the single external `generateContent` call, supplied as an
oracle: either the awaited promise rejected (network, auth, SDK error),
or it resolved with an optional response text. -/
inductive ServiceOutcome where
  | threw : ServiceOutcome
  | responded : Option String → ServiceOutcome

/-- `response.text || chars 7b 7d` — JavaScript `||` replaces both an
absent and an empty text with the literal two-character string
containing an opening and a closing brace. -/
def effectiveText : Option String → String
  | none => "\x7b\x7d"
  | some s => if s = "" then "\x7b\x7d" else s

/-- `analyzeNFCLogs`, embedded.  The `await ai.models.generateContent`
in the source sits OUTSIDE the `try` block, so a rejected call
propagates to the caller (`Except.error`); only the `JSON.parse` of the
response text is guarded, and a parse failure yields the hardcoded
fallback record.  A successful parse is returned as-is: the
`as AnalysisResult` cast performs no runtime validation, so the result
is whatever JSON the text parsed to. -/
def analyzeNFCLogs (logs : List LogEntry) (outcome : ServiceOutcome) :
    Except Unit Json :=
  let _prompt :=
    "Analyze the following NFC transaction logs for security vulnerabilities" ++
      logContext logs
  match outcome with
  | ServiceOutcome.threw => Except.error ()
  | ServiceOutcome.responded text =>
    match jsonParse (effectiveText text) with
    | some j => Except.ok j
    | none => Except.ok fallbackJson

/-! ### Application state and its mutators -/

/-- The component-local state of the application: `state`, `logs`,
`selectedAmount`, `analysis`, `isAnalyzing`.  The static mock-account
display data is presentation-only seed data, never mutated, and no claim
concerns it, so it is not part of the modelled state.  The `analysis`
slot holds the raw runtime JSON value that was installed (the TypeScript
type annotation `AnalysisResult | null` is not enforced at runtime). -/
structure AppState where
  state : ATMAttackState
  logs : List LogEntry
  selectedAmount : Nat
  analysis : Option Json
  isAnalyzing : Bool
deriving Repr

/-- The initial `useState` values: idle, no logs, amount 0, no analysis,
not analyzing. -/
def initialState : AppState :=
  { state := ATMAttackState.IDLE
    logs := []
    selectedAmount := 0
    analysis := none
    isAnalyzing := false }

/-- `addLog(message, level, data?)`: build a new entry and append it to
the end of the log sequence.  The identifier (produced in the source by
`Math.random().toString(36).substr(2, 9)`) and the timestamp (produced
by `Date.now()`) are supplied by the environment as the `newId` and
`now` arguments. -/
def addLog (s : AppState) (message : String) (level : LogLevel)
    (data : Option Json) (newId : String) (now : Nat) : AppState :=
  { s with logs := s.logs ++
      [{ id := newId, timestamp := now, level := level,
         message := message, data := data }] }

/-! ### The scripted progression engine (`startSimulation`) -/

/-- One primitive effect performed by the body of `startSimulation`,
in source order: clearing the analysis, setting the current state,
recording the selected amount, appending a log entry, or awaiting a
timed delay (milliseconds). -/
inductive Event where
  | setAnalysisNone : Event
  | setState : ATMAttackState → Event
  | setSelectedAmount : Nat → Event
  | addLogEv : String → LogLevel → Option Json → Event
  | delay : Nat → Event

/-- The body of `startSimulation` as its ordered list of effects, a
line-by-line transliteration of the source.  The withdrawal amount
(drawn once in the source as `Math.floor(Math.random() * 200) + 20`,
just before the amount-selection log) is a parameter here; it is used
exactly where the source uses it: the `setSelectedAmount` effect, the
amount-selection log message, and the final log message. -/
def startSimulationEvents (amount : Nat) : List Event :=
  [Event.setAnalysisNone,
   Event.setState ATMAttackState.SCANNING,
   Event.addLogEv "NFC Controller initialized. Listening for targets..."
     LogLevel.INFO none,
   Event.delay 2000,
   Event.setState ATMAttackState.CARD_DETECTED,
   Event.addLogEv "Target Card Detected: ISO/IEC 14443 Type A"
     LogLevel.SUCCESS (some (Json.obj [("uid", Json.str "04:A2:F1:C9")])),
   Event.delay 1500,
   Event.setState ATMAttackState.PIN_BYPASS,
   Event.addLogEv "Executing PIN Bypass Payload (Modifying 0x9F34 CVM Results)..."
     LogLevel.WARNING none,
   Event.delay 2000,
   Event.addLogEv "CVM verification bypassed. Authorized for Offline PIN."
     LogLevel.SUCCESS none,
   Event.setState ATMAttackState.AMOUNT_SELECTION,
   Event.setSelectedAmount amount,
   Event.addLogEv ("Force-selecting withdrawal amount: $" ++ toString amount)
     LogLevel.INFO none,
   Event.delay 1500,
   Event.setState ATMAttackState.TRANSACTION_PROCESSING,
   Event.addLogEv "Broadcasting encrypted payload to reader..."
     LogLevel.INFO none,
   Event.delay 2500,
   Event.setState ATMAttackState.COMPLETED,
   Event.addLogEv
     ("Simulation complete. Transaction accepted by mock gateway. Total: $" ++
       toString amount)
     LogLevel.SUCCESS none]

/-- Apply one effect to the state.  `k` counts the log entries created so
far in this run; `freshId k` and `now k` are the identifier and clock
values the environment supplies for the k-th created entry.  A `delay`
changes no state (the engine merely suspends). -/
def applyEvent (freshId : Nat → String) (now : Nat → Nat)
    (s : AppState) (k : Nat) : Event → AppState × Nat
  | Event.setAnalysisNone => ({ s with analysis := none }, k)
  | Event.setState st => ({ s with state := st }, k)
  | Event.setSelectedAmount n => ({ s with selectedAmount := n }, k)
  | Event.addLogEv m lv d => (addLog s m lv d (freshId k) (now k), k + 1)
  | Event.delay _ => (s, k)

/-- Execute a list of effects strictly in order (the source body is one
straight-line async function: each effect completes before the next
starts). -/
def applyEvents (freshId : Nat → String) (now : Nat → Nat) :
    List Event → AppState × Nat → AppState × Nat
  | [], sk => sk
  | e :: es, (s, k) => applyEvents freshId now es (applyEvent freshId now s k e)

/-- `startSimulation`, embedded: the random draw is the oracle `r`
(so the amount is `r % 200 + 20`, the range of
`Math.floor(Math.random() * 200) + 20`), and the run executes the fixed
effect list in order from the given state. -/
def startSimulation (s : AppState) (r : Nat) (freshId : Nat → String)
    (now : Nat → Nat) : AppState :=
  (applyEvents freshId now (startSimulationEvents (r % 200 + 20)) (s, 0)).1

/-! ### `handleAnalyze` and `resetSimulator` -/

/-- `handleAnalyze`, embedded.  Early return when the log sequence is
empty (second component `false`: the external service was not called).
Otherwise `isAnalyzing` is set, `analyzeNFCLogs` runs on the current
logs (second component `true`); on a normal return its value is
installed as the analysis and a success log is appended, and on a
propagated error the `catch` branch appends an error log instead; the
`finally` branch clears `isAnalyzing` either way. -/
def handleAnalyze (s : AppState) (outcome : ServiceOutcome)
    (newId : String) (now : Nat) : AppState × Bool :=
  if s.logs.length = 0 then (s, false)
  else
    let s0 := { s with isAnalyzing := true }
    match analyzeNFCLogs s0.logs outcome with
    | Except.ok result =>
      let s1 := { s0 with analysis := some result }
      let s2 := addLog s1 "Gemini AI Analysis complete." LogLevel.SUCCESS
        none newId now
      ({ s2 with isAnalyzing := false }, true)
    | Except.error _ =>
      let s1 := addLog s0 "Failed to analyze logs with Gemini." LogLevel.ERROR
        none newId now
      ({ s1 with isAnalyzing := false }, true)

/-- `resetSimulator`: state to idle, logs cleared, amount zeroed,
analysis cleared (`isAnalyzing` is not touched by the source). -/
def resetSimulator (s : AppState) : AppState :=
  { s with state := ATMAttackState.IDLE
           logs := []
           selectedAmount := 0
           analysis := none }

/-! ### Reachable application states -/

/-- One user-triggered operation, with the guards the presentation layer
enforces: the start trigger is disabled unless the state is idle, and
the analyze trigger is disabled while the log sequence is empty or a
request is in flight; reset is always available. -/
inductive Step : AppState → AppState → Prop where
  | start (s : AppState) (r : Nat) (freshId : Nat → String) (now : Nat → Nat)
      (h : s.state = ATMAttackState.IDLE) :
      Step s (startSimulation s r freshId now)
  | analyze (s : AppState) (outcome : ServiceOutcome) (newId : String)
      (now : Nat) (h1 : s.logs ≠ []) (h2 : s.isAnalyzing = false) :
      Step s (handleAnalyze s outcome newId now).1
  | reset (s : AppState) : Step s (resetSimulator s)

/-- A state is reachable when some sequence of operations leads to it
from the initial state. -/
def Reachable (s : AppState) : Prop :=
  Relation.ReflTransGen Step initialState s

/-! ### Observers used by the specifications -/

/-- The state a `setState` effect installs (`none` for other effects). -/
def eventStateOf : Event → Option ATMAttackState
  | Event.setState st => some st
  | _ => none

/-- The sequence of values the current state takes after each effect of
a run, executed strictly in order. -/
def stateTrace (freshId : Nat → String) (now : Nat → Nat) :
    List Event → AppState × Nat → List ATMAttackState
  | [], _ => []
  | e :: es, (s, k) =>
    let p := applyEvent freshId now s k e
    p.1.state :: stateTrace freshId now es p

/-! ### Helper lemmas -/

/-- A completed run leaves the attack state `COMPLETED`. -/
theorem startSimulation_state (s : AppState) (r : Nat) (freshId : Nat → String)
    (now : Nat → Nat) :
    (startSimulation s r freshId now).state = ATMAttackState.COMPLETED := rfl

/-- A completed run leaves the analysis slot empty: its first effect
clears it and no later effect writes it. -/
theorem startSimulation_analysis (s : AppState) (r : Nat)
    (freshId : Nat → String) (now : Nat → Nat) :
    (startSimulation s r freshId now).analysis = none := rfl

/-- A completed run records the single random draw as the selected
amount. -/
theorem startSimulation_amount (s : AppState) (r : Nat)
    (freshId : Nat → String) (now : Nat → Nat) :
    (startSimulation s r freshId now).selectedAmount = r % 200 + 20 := rfl

/-- A run only appends to the log sequence: the prior entries survive as
the initial segment. -/
theorem startSimulation_take_logs (s : AppState) (r : Nat)
    (freshId : Nat → String) (now : Nat → Nat) :
    (startSimulation s r freshId now).logs.take s.logs.length = s.logs := by
  simp [startSimulation, startSimulationEvents, applyEvents, applyEvent, addLog,
    List.take_left]

/-- `handleAnalyze` either leaves the analysis slot untouched (empty
logs, or a propagated service error) or installs exactly the value a
completed `analyzeNFCLogs` call returned. -/
theorem handleAnalyze_analysis_cases (s : AppState) (outcome : ServiceOutcome)
    (newId : String) (now : Nat) :
    (handleAnalyze s outcome newId now).1.analysis = s.analysis ∨
    ∃ j, analyzeNFCLogs s.logs outcome = Except.ok j ∧
      (handleAnalyze s outcome newId now).1.analysis = some j := by
  by_cases h : s.logs.length = 0
  · left
    simp [handleAnalyze, h]
  · cases hA : analyzeNFCLogs s.logs outcome with
    | ok j => exact Or.inr ⟨j, rfl, by simp [handleAnalyze, h, hA, addLog]⟩
    | error e => exact Or.inl (by simp [handleAnalyze, h, hA, addLog])

/-- `handleAnalyze` only appends to the log sequence. -/
theorem handleAnalyze_take_logs (s : AppState) (outcome : ServiceOutcome)
    (newId : String) (now : Nat) :
    (handleAnalyze s outcome newId now).1.logs.take s.logs.length = s.logs := by
  by_cases h : s.logs.length = 0
  · simp [handleAnalyze, h]
    exact List.eq_nil_of_length_eq_zero h
  · cases hA : analyzeNFCLogs s.logs outcome with
    | ok j => simp [handleAnalyze, h, hA, addLog, List.take_left]
    | error e => simp [handleAnalyze, h, hA, addLog, List.take_left]

/-! ### Claim C5 -/

/-- Claim C5 (confirmed): from every prior application state,
`resetSimulator` yields the idle state, an empty log sequence, an absent
analysis result, and a selected amount of 0. -/
theorem C5_reset_restores_initial (s : AppState) :
    (resetSimulator s).state = ATMAttackState.IDLE ∧
    (resetSimulator s).logs = [] ∧
    (resetSimulator s).analysis = none ∧
    (resetSimulator s).selectedAmount = 0 :=
  ⟨rfl, rfl, rfl, rfl⟩

/-! ### Claim C6 -/

/-- Claim C6 (confirmed): `addLog` grows the log sequence by exactly one
entry, every prior entry survives unchanged at its original position
(the old sequence is the initial segment of the new one), and the new
entry sits at the end.  Moreover every user-triggered operation either
clears the whole sequence (reset) or preserves the existing entries as
an initial segment, so between resets the sequence is append-only. -/
theorem C6_addLog_append_only (s : AppState) (m : String) (lv : LogLevel)
    (d : Option Json) (newId : String) (now : Nat) :
    (addLog s m lv d newId now).logs.length = s.logs.length + 1 ∧
    (addLog s m lv d newId now).logs.take s.logs.length = s.logs ∧
    (addLog s m lv d newId now).logs.getLast? =
      some { id := newId, timestamp := now, level := lv, message := m,
             data := d } ∧
    ∀ t u, Step t u → u.logs = [] ∨ u.logs.take t.logs.length = t.logs := by
  refine ⟨by simp [addLog], List.take_left s.logs _, ?_, ?_⟩
  · simp [addLog]
  · intro t u hstep
    cases hstep with
    | start r freshId nw h => exact Or.inr (startSimulation_take_logs t r freshId nw)
    | analyze outcome nid nw h1 h2 =>
      exact Or.inr (handleAnalyze_take_logs t outcome nid nw)
    | reset => exact Or.inl rfl

/-- Witness for claim C6 at a concrete input: one append to the initial
state, and the reset operation as the step. -/
theorem C6_addLog_append_only_witness :
    (addLog initialState "boot" LogLevel.INFO none "w6" 3).logs.length =
      initialState.logs.length + 1 ∧
    (addLog initialState "boot" LogLevel.INFO none "w6" 3).logs.take
      initialState.logs.length = initialState.logs ∧
    (addLog initialState "boot" LogLevel.INFO none "w6" 3).logs.getLast? =
      some { id := "w6", timestamp := 3, level := LogLevel.INFO,
             message := "boot", data := none } ∧
    ((resetSimulator initialState).logs = [] ∨
      (resetSimulator initialState).logs.take initialState.logs.length =
        initialState.logs) := by
  have h := C6_addLog_append_only initialState "boot" LogLevel.INFO none "w6" 3
  exact ⟨h.1, h.2.1, h.2.2.1,
    h.2.2.2 initialState (resetSimulator initialState) (Step.reset initialState)⟩

/-! ### Claim C7 -/

/-- Claim C7 (confirmed): invoked with an empty log sequence,
`handleAnalyze` returns unchanged state (in particular the analysis
result is untouched) and the external service is not called (the second
component records whether `analyzeNFCLogs` ran). -/
theorem C7_empty_logs_no_call (s : AppState) (outcome : ServiceOutcome)
    (newId : String) (now : Nat) (h : s.logs = []) :
    handleAnalyze s outcome newId now = (s, false) := by
  unfold handleAnalyze
  simp [h]

/-- Witness for claim C7 at the initial state, whose log sequence is
empty. -/
theorem C7_empty_logs_no_call_witness :
    handleAnalyze initialState ServiceOutcome.threw "w7" 4 =
      (initialState, false) :=
  C7_empty_logs_no_call initialState ServiceOutcome.threw "w7" 4 rfl

/-! ### Claim C1 -/

/-- Counterexample to claim C1 as stated: when the external service call
itself fails (the awaited `generateContent` promise rejects, e.g. on a
network error), `analyzeNFCLogs` does not return the fallback record —
the `await` sits outside the `try` block, so the error propagates to the
caller. -/
theorem C1_counterexample :
    analyzeNFCLogs [] ServiceOutcome.threw = Except.error () ∧
    analyzeNFCLogs [] ServiceOutcome.threw ≠ Except.ok fallbackJson :=
  ⟨rfl, fun h => Except.noConfusion h⟩

/-- Claim C1 (corrected): only a failure to parse the response text as
JSON is recovered with the fixed fallback record (score 0, threat type
"Analysis Failed", the two fixed recommendations, the fixed summary); a
failure of the external service call itself propagates to the caller. -/
theorem C1_fallback_on_parse_failure (logs : List LogEntry) :
    analyzeNFCLogs logs ServiceOutcome.threw = Except.error () ∧
    ∀ text, jsonParse (effectiveText text) = none →
      analyzeNFCLogs logs (ServiceOutcome.responded text) =
        Except.ok fallbackJson := by
  refine ⟨rfl, ?_⟩
  intro text h
  simp [analyzeNFCLogs, h]

/-- Witness for claim C1 at concrete inputs: an empty log list, with the
thrown outcome and with a response whose text is not JSON. -/
theorem C1_fallback_on_parse_failure_witness :
    analyzeNFCLogs [] ServiceOutcome.threw = Except.error () ∧
    analyzeNFCLogs [] (ServiceOutcome.responded (some "not json")) =
      Except.ok fallbackJson :=
  ⟨(C1_fallback_on_parse_failure []).1,
   (C1_fallback_on_parse_failure []).2 (some "not json") rfl⟩

/-! ### Claim C9 -/

/-- Claim C9 (confirmed): when the external call returns text that
parses to a schema-valid `AnalysisResult` payload, `analyzeNFCLogs`
returns exactly that payload, unchanged. -/
theorem C9_schema_valid_returned (logs : List LogEntry) (t : String)
    (j : Json) (hlogs : logs ≠ []) (hparse : jsonParse t = some j)
    (hvalid : isCompleteAnalysisResult j = true) :
    analyzeNFCLogs logs (ServiceOutcome.responded (some t)) = Except.ok j := by
  have ht : t ≠ "" := by
    intro he
    rw [he] at hparse
    exact Option.noConfusion hparse
  simp [analyzeNFCLogs, effectiveText, ht, hparse]

/-- Witness for claim C9: a one-entry log and a concrete schema-valid
response payload, returned verbatim. -/
theorem C9_schema_valid_returned_witness :
    analyzeNFCLogs
      [{ id := "w9", timestamp := 0, level := LogLevel.INFO,
         message := "probe", data := none }]
      (ServiceOutcome.responded (some
        "\x7b\"vulnerabilityScore\":85,\"threatType\":\"Relay Attack\",\"recommendations\":[\"Use MACs\"],\"summary\":\"High risk.\"\x7d")) =
      Except.ok (Json.obj
        [("vulnerabilityScore", Json.num 85),
         ("threatType", Json.str "Relay Attack"),
         ("recommendations", Json.arr [Json.str "Use MACs"]),
         ("summary", Json.str "High risk.")]) :=
  C9_schema_valid_returned _ _ _ (by simp) rfl rfl

/-! ### Claim C2 -/

/-- Counterexample to claim C2 as stated: a completed run from the idle
state (empty log sequence) appends SEVEN log entries, not six — the
source body contains seven `addLog` calls (the pin-bypass stage logs
twice). -/
theorem C2_counterexample :
    (startSimulation initialState 0 (fun _ => "c2") (fun _ => 0)).logs.length =
      7 ∧
    (startSimulation initialState 0 (fun _ => "c2") (fun _ => 0)).logs.length ≠
      6 :=
  ⟨rfl, by decide⟩

/-- Claim C2 (corrected): a completed run from the idle state (empty log
sequence) yields exactly SEVEN log entries, the final state `COMPLETED`,
and a final log message that contains the integer amount selected once
at the amount-selection step (the recorded `selectedAmount`). -/
theorem C2_run_results (s : AppState) (r : Nat) (freshId : Nat → String)
    (now : Nat → Nat) (h1 : s.state = ATMAttackState.IDLE)
    (h2 : s.logs = []) :
    (startSimulation s r freshId now).logs.length = 7 ∧
    (startSimulation s r freshId now).state = ATMAttackState.COMPLETED ∧
    (startSimulation s r freshId now).selectedAmount = r % 200 + 20 ∧
    ((startSimulation s r freshId now).logs.getLast?).map LogEntry.message =
      some ("Simulation complete. Transaction accepted by mock gateway. Total: $"
        ++ toString ((startSimulation s r freshId now).selectedAmount)) := by
  obtain ⟨st, logs, amt, an, ia⟩ := s
  have h2' : logs = [] := h2
  subst h2'
  exact ⟨rfl, rfl, rfl, rfl⟩

/-- Witness for claim C2 at a concrete input: the initial state, random
draw 5, and concrete identifier/clock oracles. -/
theorem C2_run_results_witness :
    (startSimulation initialState 5 (fun _ => "w2") (fun k => k)).logs.length =
      7 ∧
    (startSimulation initialState 5 (fun _ => "w2") (fun k => k)).state =
      ATMAttackState.COMPLETED ∧
    (startSimulation initialState 5 (fun _ => "w2") (fun k => k)).selectedAmount =
      5 % 200 + 20 ∧
    ((startSimulation initialState 5 (fun _ => "w2")
        (fun k => k)).logs.getLast?).map LogEntry.message =
      some ("Simulation complete. Transaction accepted by mock gateway. Total: $"
        ++ toString ((startSimulation initialState 5 (fun _ => "w2")
          (fun k => k)).selectedAmount)) :=
  C2_run_results initialState 5 (fun _ => "w2") (fun k => k) rfl rfl

/-! ### Claim C4 -/

/-- Claim C4 (confirmed): a run from the idle state drives the current
state through exactly the fixed order scanning, card-detected,
pin-bypass, amount-selection, transaction-processing, completed.  The
`setState` effects of the script are exactly those six in that order;
collapsing consecutive repetitions of the executed state trace gives
exactly idle followed by those six stages; and the `FAILED` state never
occurs anywhere in the trace.  Execution is strictly sequential
(`applyEvents` is a fold over the effect list), so there is no
interleaving. -/
theorem C4_fixed_state_order (s : AppState) (r : Nat)
    (freshId : Nat → String) (now : Nat → Nat)
    (h : s.state = ATMAttackState.IDLE) :
    (startSimulationEvents (r % 200 + 20)).filterMap eventStateOf =
      [ATMAttackState.SCANNING, ATMAttackState.CARD_DETECTED,
       ATMAttackState.PIN_BYPASS, ATMAttackState.AMOUNT_SELECTION,
       ATMAttackState.TRANSACTION_PROCESSING, ATMAttackState.COMPLETED] ∧
    List.destutter (fun a b => a ≠ b)
      (s.state ::
        stateTrace freshId now (startSimulationEvents (r % 200 + 20)) (s, 0)) =
      [ATMAttackState.IDLE, ATMAttackState.SCANNING,
       ATMAttackState.CARD_DETECTED, ATMAttackState.PIN_BYPASS,
       ATMAttackState.AMOUNT_SELECTION, ATMAttackState.TRANSACTION_PROCESSING,
       ATMAttackState.COMPLETED] ∧
    ATMAttackState.FAILED ∉
      s.state ::
        stateTrace freshId now (startSimulationEvents (r % 200 + 20)) (s, 0) := by
  obtain ⟨st, logs, amt, an, ia⟩ := s
  have h' : st = ATMAttackState.IDLE := h
  subst h'
  have htr : (AppState.state
        { state := ATMAttackState.IDLE, logs := logs, selectedAmount := amt,
          analysis := an, isAnalyzing := ia } ::
      stateTrace freshId now (startSimulationEvents (r % 200 + 20))
        ({ state := ATMAttackState.IDLE, logs := logs, selectedAmount := amt,
           analysis := an, isAnalyzing := ia }, 0)) =
      [ATMAttackState.IDLE, ATMAttackState.IDLE,
       ATMAttackState.SCANNING, ATMAttackState.SCANNING,
       ATMAttackState.SCANNING,
       ATMAttackState.CARD_DETECTED, ATMAttackState.CARD_DETECTED,
       ATMAttackState.CARD_DETECTED,
       ATMAttackState.PIN_BYPASS, ATMAttackState.PIN_BYPASS,
       ATMAttackState.PIN_BYPASS, ATMAttackState.PIN_BYPASS,
       ATMAttackState.AMOUNT_SELECTION, ATMAttackState.AMOUNT_SELECTION,
       ATMAttackState.AMOUNT_SELECTION, ATMAttackState.AMOUNT_SELECTION,
       ATMAttackState.TRANSACTION_PROCESSING,
       ATMAttackState.TRANSACTION_PROCESSING,
       ATMAttackState.TRANSACTION_PROCESSING,
       ATMAttackState.COMPLETED, ATMAttackState.COMPLETED] := rfl
  rw [htr]
  exact ⟨rfl, rfl, by decide⟩

/-- Witness for claim C4 at a concrete input: the initial state with
concrete oracles. -/
theorem C4_fixed_state_order_witness :
    (startSimulationEvents (3 % 200 + 20)).filterMap eventStateOf =
      [ATMAttackState.SCANNING, ATMAttackState.CARD_DETECTED,
       ATMAttackState.PIN_BYPASS, ATMAttackState.AMOUNT_SELECTION,
       ATMAttackState.TRANSACTION_PROCESSING, ATMAttackState.COMPLETED] ∧
    List.destutter (fun a b => a ≠ b)
      (initialState.state ::
        stateTrace (fun _ => "w4") (fun _ => 0)
          (startSimulationEvents (3 % 200 + 20)) (initialState, 0)) =
      [ATMAttackState.IDLE, ATMAttackState.SCANNING,
       ATMAttackState.CARD_DETECTED, ATMAttackState.PIN_BYPASS,
       ATMAttackState.AMOUNT_SELECTION, ATMAttackState.TRANSACTION_PROCESSING,
       ATMAttackState.COMPLETED] ∧
    ATMAttackState.FAILED ∉
      initialState.state ::
        stateTrace (fun _ => "w4") (fun _ => 0)
          (startSimulationEvents (3 % 200 + 20)) (initialState, 0) :=
  C4_fixed_state_order initialState 3 (fun _ => "w4") (fun _ => 0) rfl

/-! ### Claim C3 -/

/-- Counterexample to claim C3 as stated: a reachable state holds a
partial analysis record.  After one run, invoking the analysis with an
external response whose text is absent installs the empty JSON object —
`response.text || *braces*` turns the absent text into the two-character
brace string, `JSON.parse` of it succeeds with an empty object, and the
unchecked `as AnalysisResult` cast installs it even though all four
required fields are missing. -/
theorem C3_counterexample :
    Reachable (handleAnalyze
        (startSimulation initialState 7 (fun k => toString k) (fun _ => 0))
        (ServiceOutcome.responded none) "c3" 9).1 ∧
    (handleAnalyze
        (startSimulation initialState 7 (fun k => toString k) (fun _ => 0))
        (ServiceOutcome.responded none) "c3" 9).1.analysis =
      some (Json.obj []) ∧
    isCompleteAnalysisResult (Json.obj []) = false := by
  refine ⟨?_, rfl, rfl⟩
  have h1 : Step initialState
      (startSimulation initialState 7 (fun k => toString k) (fun _ => 0)) :=
    Step.start initialState 7 (fun k => toString k) (fun _ => 0) rfl
  have h2 : Step
      (startSimulation initialState 7 (fun k => toString k) (fun _ => 0))
      (handleAnalyze
        (startSimulation initialState 7 (fun k => toString k) (fun _ => 0))
        (ServiceOutcome.responded none) "c3" 9).1 := by
    apply Step.analyze
    · intro hnil
      have h7 : (startSimulation initialState 7 (fun k => toString k)
          (fun _ => 0)).logs.length = 7 := rfl
      rw [hnil] at h7
      exact absurd h7 (by decide)
    · rfl
  exact Relation.ReflTransGen.tail
    (Relation.ReflTransGen.tail Relation.ReflTransGen.refl h1) h2

/-- Claim C3 (corrected): at every reachable state the analysis result
is either absent or exactly the JSON value some completed
`analyzeNFCLogs` call returned — but that value is NOT validated against
the schema, so when the external service returns absent or
schema-incomplete response text, the installed record may lack required
fields (the counterexample installs the empty object). -/
theorem C3_analysis_absent_or_returned (s : AppState) (h : Reachable s) :
    s.analysis = none ∨
    ∃ logs outcome j, analyzeNFCLogs logs outcome = Except.ok j ∧
      s.analysis = some j := by
  induction h with
  | refl => exact Or.inl rfl
  | tail hxy hstep ih =>
    cases hstep with
    | start r freshId nw hidle =>
      exact Or.inl (startSimulation_analysis _ r freshId nw)
    | analyze outcome nid nw h1 h2 =>
      rcases handleAnalyze_analysis_cases _ outcome nid nw with heq | ⟨j, hok, heq⟩
      · rw [heq]
        exact ih
      · exact Or.inr ⟨_, outcome, j, hok, heq⟩
    | reset => exact Or.inl rfl

/-- Witness for claim C3 at a concrete reachable state: the initial
state, where the analysis result is absent. -/
theorem C3_analysis_absent_or_returned_witness :
    initialState.analysis = none ∨
    ∃ logs outcome j, analyzeNFCLogs logs outcome = Except.ok j ∧
      initialState.analysis = some j :=
  C3_analysis_absent_or_returned initialState Relation.ReflTransGen.refl

/-! ### Claim C8 -/

/-- Counterexample to claim C8 as stated: the identifier of a new entry
is `Math.random().toString(36).substr(2, 9)`, and nothing checks it
against the identifiers already in the sequence; when the random source
produces the same string twice, two entries share an identifier. -/
theorem C8_counterexample :
    ((addLog (addLog initialState "first probe" LogLevel.INFO none "dup" 1)
        "second probe" LogLevel.INFO none "dup" 2).logs.map LogEntry.id) =
      ["dup", "dup"] ∧
    ¬ ((addLog (addLog initialState "first probe" LogLevel.INFO none "dup" 1)
        "second probe" LogLevel.INFO none "dup" 2).logs.map
          LogEntry.id).Nodup :=
  ⟨rfl, by decide⟩

/-- Claim C8 (corrected): each created log entry carries exactly the
identifier produced by the random-string generator at creation and a
timestamp equal to the current instant at creation; the identifier is
distinct from all identifiers already in the sequence ONLY when the
random draw differs from all of them — uniqueness is not enforced by the
code. -/
theorem C8_entry_fields (s : AppState) (m : String) (lv : LogLevel)
    (d : Option Json) (newId : String) (now : Nat) :
    (addLog s m lv d newId now).logs.getLast? =
      some { id := newId, timestamp := now, level := lv, message := m,
             data := d } ∧
    ((∀ e ∈ s.logs, e.id ≠ newId) →
      ∀ e ∈ (addLog s m lv d newId now).logs.take s.logs.length,
        e.id ≠ newId) := by
  constructor
  · simp [addLog]
  · intro hfresh e he
    have ht : (addLog s m lv d newId now).logs.take s.logs.length = s.logs :=
      List.take_left s.logs _
    rw [ht] at he
    exact hfresh e he

/-- Witness for claim C8 at a concrete input: one append to the initial
state, whose log sequence is empty. -/
theorem C8_entry_fields_witness :
    (addLog initialState "boot probe" LogLevel.WARNING none "w8" 5).logs.getLast? =
      some { id := "w8", timestamp := 5, level := LogLevel.WARNING,
             message := "boot probe", data := none } ∧
    ∀ e ∈ (addLog initialState "boot probe" LogLevel.WARNING none
        "w8" 5).logs.take initialState.logs.length, e.id ≠ "w8" := by
  have h := C8_entry_fields initialState "boot probe" LogLevel.WARNING none
    "w8" 5
  exact ⟨h.1, h.2 (by simp [initialState])⟩

/-! ### Claim C10 -/

/-- Claim C10 (confirmed): the first effect of a scripted run clears the
analysis result, before any state transition or log append; and since no
later effect of the run writes the analysis slot, the completed run
leaves it absent. -/
theorem C10_run_clears_analysis_first (amount : Nat) (s : AppState) (r : Nat)
    (freshId : Nat → String) (now : Nat → Nat) :
    (startSimulationEvents amount).head? = some Event.setAnalysisNone ∧
    (startSimulation s r freshId now).analysis = none :=
  ⟨rfl, startSimulation_analysis s r freshId now⟩
